import Mathlib

/-!
Shallow embedding of `src/plugin/index.js` (webpack-dashboard's
`DashboardPlugin`) and proofs about its build-timer label, project-root
resolution, connection teardown, NODE_ENV lookup, and the lifecycle
bridge's message batches.
-/

namespace DashboardPlugin

/-! ## Timer -/

def ONE_SECOND : Int := 1000

/-- `getTimeMessage(timer)` from src/plugin/index.js.  `now` models
`Date.now()`; `timer` is the recorded start instant, `none` modelling the JS
`undefined` that `let timer` holds before any `compile` signal.  In JS,
`Date.now() - undefined` is `NaN`, `NaN >= 1000` is false, and string
concatenation renders `NaN` as "NaN", so the `undefined` case yields
" (NaNms)".  For an integer elapsed time `time >= 1000`,
`Math.round(time / 1000)` equals `(time + 500) / 1000` in integer division. -/
def getTimeMessage (now : Int) (timer : Option Int) : String :=
  match timer with
  | none => " (NaNms)"
  | some t =>
    let time := now - t
    if time ≥ ONE_SECOND then
      " (" ++ toString ((time + 500) / 1000) ++ "s)"
    else
      " (" ++ toString time ++ "ms)"

/-- The elapsed-label grammar with the wrapper the source actually emits:
a leading space and parentheses around the duration text. -/
def elapsedLabelSpec (d : Int) : String :=
  if d < 1000 then " (" ++ toString d ++ "ms)"
  else " (" ++ toString ((d + 500) / 1000) ++ "s)"

/-! ## Root Resolver -/

/-- The `bundle` argument of `getProjectRoot`: only its (possibly falsy)
`context` field is read. -/
structure Bundle where
  context : Option String

/-- `getProjectRoot(bundle)` from src/plugin/index.js.  `req dir` models
`require(path.join(dir, "package.json"))`: `none` is a thrown error (missing
file, parse error, permission error), `some b` a returned value of truthiness
`b`.  `root` models `this.root`, `cwd` models `process.cwd()` (against which
`path.resolve("package.json")` resolves). -/
def getProjectRoot (req : String → Option Bool) (root : Option String)
    (bundle : Bundle) (cwd : String) : Option String :=
  match root with
  | some r => some r
  | none =>
    match bundle.context with
    | some ctx =>
      if (req ctx).getD false then some ctx
      else if (req cwd).getD false then some cwd
      else none
    | none =>
      if (req cwd).getD false then some cwd
      else none

/-! ## C1: the build-timer label -/

/-- C1 counterexample: the claim says the label for an elapsed duration of
412ms is the string "412ms"; the code returns " (412ms)" — the duration is
wrapped in a leading space and parentheses (`return ` followed by
`\x7b`-interpolation of `(${time})` in the source). -/
theorem c1_counterexample :
    getTimeMessage 412 (some 0) = " (412ms)" ∧
    getTimeMessage 412 (some 0) ≠ "412ms" := by
  constructor
  · rfl
  · decide

lemma getTimeMessage_some (now t : Int) :
    getTimeMessage now (some t) = elapsedLabelSpec (now - t) := by
  simp only [getTimeMessage, elapsedLabelSpec, ONE_SECOND]
  by_cases h : now - t < 1000
  · rw [if_neg (by omega), if_pos h]
  · rw [if_pos (by omega), if_neg h]

/-- C1 (amended): for every start instant `t` and current instant `now`, the
label for the elapsed duration d = now - t is " (dms)" when d < 1000 and
" (round(d/1000)s)" when d ≥ 1000 — the claimed digits-plus-unit text, but
wrapped in a leading space and parentheses; e.g. d=412 yields " (412ms)" and
d=3400 yields " (3s)". -/
theorem c1_elapsed_label (now t : Int) :
    getTimeMessage now (some t) = elapsedLabelSpec (now - t) :=
  getTimeMessage_some now t

/-! ## C2: project-root resolution -/

/-- C2: project-root resolution is an ordered short-circuiting fallback:
an explicit root option is returned unconditionally regardless of the other
inputs; else the bundle context when set and its package.json loads (truthy);
else the cwd when its package.json loads; else null. -/
theorem c2_project_root (req : String → Option Bool) (root : Option String)
    (bundle : Bundle) (cwd : String) :
    (∀ r, root = some r → getProjectRoot req root bundle cwd = some r) ∧
    (root = none → ∀ ctx, bundle.context = some ctx → req ctx = some true →
      getProjectRoot req root bundle cwd = some ctx) ∧
    (root = none → (∀ ctx, bundle.context = some ctx → req ctx ≠ some true) →
      req cwd = some true → getProjectRoot req root bundle cwd = some cwd) ∧
    (root = none → (∀ ctx, bundle.context = some ctx → req ctx ≠ some true) →
      req cwd ≠ some true → getProjectRoot req root bundle cwd = none) := by
  refine ⟨?_, ?_, ?_, ?_⟩
  · intro r hr
    subst hr
    rfl
  · intro hr ctx hctx hreq
    subst hr
    simp [getProjectRoot, hctx, hreq]
  · intro hr hctx hcwd
    subst hr
    cases hb : bundle.context with
    | none =>
      simp [getProjectRoot, hb, hcwd]
    | some ctx =>
      have hne : req ctx ≠ some true := hctx ctx hb
      have hfalse : (req ctx).getD false = false := by
        cases hq : req ctx with
        | none => rfl
        | some b =>
          cases b with
          | false => rfl
          | true => exact absurd hq hne
      simp [getProjectRoot, hb, hfalse, hcwd]
  · intro hr hctx hcwd
    subst hr
    have hcwdD : (req cwd).getD false = false := by
      cases hq : req cwd with
      | none => rfl
      | some b =>
        cases b with
        | false => rfl
        | true => exact absurd hq hcwd
    cases hb : bundle.context with
    | none =>
      simp [getProjectRoot, hb, hcwdD]
    | some ctx =>
      have hne : req ctx ≠ some true := hctx ctx hb
      have hfalse : (req ctx).getD false = false := by
        cases hq : req ctx with
        | none => rfl
        | some b =>
          cases b with
          | false => rfl
          | true => exact absurd hq hne
      simp [getProjectRoot, hb, hfalse, hcwdD]

/-- C2 witness: with no explicit root, context "/b" whose manifest loads,
the resolver returns "/b". -/
theorem c2_project_root_witness :
    getProjectRoot (fun d => if d = "/b" then some true else none) none
      ⟨some ("/b")⟩ "/c" = some ("/b") :=
  (c2_project_root (fun d => if d = "/b" then some true else none) none
      ⟨some ("/b")⟩ "/c").2.1 rfl "/b" rfl (by decide)

/-! ## Message protocol and lifecycle bridge -/

/-- The closed set of event types a batch entry can carry (§6 of the message
contract; `mode` is inbound-only and never emitted by the plugin). -/
inductive EventType where
  | nodeEnv : EventType
  | status : EventType
  | progress : EventType
  | operations : EventType
  | clear : EventType
  | stats : EventType
  | log : EventType
deriving DecidableEq

/-- Payload of an emitted event: a string, a number (progress percent), the
stats record `\x7berrors, warnings, data\x7d`, or nothing (the `clear` event
has no `value` key). -/
inductive EventValue where
  | vstr : String → EventValue
  | vnum : ℚ → EventValue
  | vstats : Bool → Bool → String → EventValue
  | vnone : EventValue
deriving DecidableEq

/-- One `\x7btype, value\x7d` entry of a message batch. -/
structure Event where
  type : EventType
  value : EventValue
deriving DecidableEq

/-- The display-options value passed to `stats.toString`: either the final
hard default `\x7bcolors: true\x7d` or a configured options object. -/
inductive StatsOptions where
  | colorsTrue : StatsOptions
  | custom : String → StatsOptions
deriving DecidableEq

/-- The fields of `stats.compilation.options` the `done` handler reads:
`devServerStats` models `options.devServer && options.devServer.stats`
(collapsed to `none` when `devServer` is absent or has no `stats`), and
`stats` models `options.stats`. -/
structure CompilationOptions where
  devServerStats : Option StatsOptions
  stats : Option StatsOptions

/-- The webpack stats object as used by the `done` handler: its error and
warning predicates, its JSON rendering (kept abstract as a string), its
`toString` rendering as a function of the chosen display options, and the
compilation options hanging off it. -/
structure Stats where
  hasErrors : Bool
  hasWarnings : Bool
  toJson : String
  render : StatsOptions → String
  compilation : CompilationOptions

/-- `options.devServer && options.devServer.stats || options.stats ||
\x7bcolors: true\x7d` from the `done` handler. -/
def resolveStatsOptions (o : CompilationOptions) : StatsOptions :=
  match o.devServerStats with
  | some so => so
  | none => o.stats.getD StatsOptions.colorsTrue

/-- The lifecycle signals the bundler raises into `apply`'s registered
callbacks: the five `compiler.plugin` hooks plus the ProgressPlugin callback
(percent and phase message). -/
inductive Signal where
  | watchRun : Signal
  | run : Signal
  | compile : Signal
  | progressUpdate : ℚ → String → Signal
  | invalid : Signal
  | failed : Signal
  | done : Stats → Signal

/-- The value apply's local `handler` variable holds: the initial pre-connect
no-op, the socket emitter bound on the transport's connect signal, or a
caller-supplied handler function. -/
inductive HandlerState where
  | noopH : HandlerState
  | socketH : HandlerState
  | userH : HandlerState
deriving DecidableEq

/-- The transport handle `this.socket`: `close()` marks it closed; the field
itself is never nulled by the source. -/
structure SocketState where
  closed : Bool
deriving DecidableEq

/-- The mutable state of one plugin instance with `apply` already run:
`watching` and the instance fields `this.handler` (modelled by whether it is
non-null) and `this.socket`, together with `apply`'s closure-local `handler`
binding and `timer` variable (`none` models the JS `undefined` before any
`compile`). -/
structure PluginState where
  watching : Bool
  thisHandler : Bool
  socket : Option SocketState
  localHandler : HandlerState
  timer : Option Int
deriving DecidableEq

/-- `cleanup()` from src/plugin/index.js: guarded by
`!this.watching && this.socket`; on success it nulls `this.handler` and calls
`this.socket.close()`.  It does not touch `apply`'s local `handler` binding
and does not null `this.socket`. -/
def cleanup (s : PluginState) : PluginState :=
  if !s.watching && s.socket.isSome then
    { s with thisHandler := false,
             socket := s.socket.map (fun sk => { sk with closed := true }) }
  else s

/-- The batch the lifecycle callbacks registered in `apply` pass to the
current handler for one signal, computed from the pre-signal `timer` value
(`none` for `watch-run` and `run`, which emit nothing). -/
def signalBatch (now : Int) (timer : Option Int) : Signal → Option (List Event)
  | Signal.watchRun => none
  | Signal.run => none
  | Signal.compile => some [⟨EventType.status, EventValue.vstr ("Compiling")⟩]
  | Signal.progressUpdate percent msg => some
      [⟨EventType.status, EventValue.vstr ("Compiling")⟩,
       ⟨EventType.progress, EventValue.vnum percent⟩,
       ⟨EventType.operations, EventValue.vstr (msg ++ getTimeMessage now timer)⟩]
  | Signal.invalid => some
      [⟨EventType.status, EventValue.vstr ("Invalidated")⟩,
       ⟨EventType.progress, EventValue.vnum 0⟩,
       ⟨EventType.operations, EventValue.vstr ("idle")⟩,
       ⟨EventType.clear, EventValue.vnone⟩]
  | Signal.failed => some
      [⟨EventType.status, EventValue.vstr ("Failed")⟩,
       ⟨EventType.operations, EventValue.vstr ("idle" ++ getTimeMessage now timer)⟩]
  | Signal.done st => some
      [⟨EventType.status, EventValue.vstr ("Success")⟩,
       ⟨EventType.progress, EventValue.vnum 0⟩,
       ⟨EventType.operations, EventValue.vstr ("idle" ++ getTimeMessage now timer)⟩,
       ⟨EventType.stats, EventValue.vstats st.hasErrors st.hasWarnings st.toJson⟩,
       ⟨EventType.log, EventValue.vstr (st.render (resolveStatsOptions st.compilation))⟩]

/-- State mutation each signal performs before/while emitting: `watch-run`
sets `watching`, `run` clears it, `compile` resets the timer; nothing else
changes state. -/
def stepState (now : Int) (s : PluginState) : Signal → PluginState
  | Signal.watchRun => { s with watching := true }
  | Signal.run => { s with watching := false }
  | Signal.compile => { s with timer := some now }
  | Signal.progressUpdate _ _ => s
  | Signal.invalid => s
  | Signal.failed => s
  | Signal.done _ => s

/-- Batches reaching the other end of the handler: the pre-connect no-op
drops its argument; the socket emitter and a caller-supplied handler both
pass the batch through unchanged. -/
def deliver (h : HandlerState) : Option (List Event) → List (List Event)
  | none => []
  | some batch =>
    match h with
    | HandlerState.noopH => []
    | HandlerState.socketH => [batch]
    | HandlerState.userH => [batch]

/-- Run a timestamped signal sequence through the bridge, collecting the
batches delivered through the handler. -/
def runSignals (s : PluginState) : List (Int × Signal) → List (List Event)
  | [] => []
  | (now, sig) :: rest =>
    deliver s.localHandler (signalBatch now s.timer sig) ++
      runSignals (stepState now s sig) rest

lemma stepState_localHandler (now : Int) (s : PluginState) (sig : Signal) :
    (stepState now s sig).localHandler = s.localHandler := by
  cases sig <;> rfl

lemma stepState_timer_congr (now : Int) (sig : Signal) (s₁ s₂ : PluginState)
    (ht : s₁.timer = s₂.timer) :
    (stepState now s₁ sig).timer = (stepState now s₂ sig).timer := by
  cases sig <;> simp [stepState, ht]

/-- Delivered output depends only on the local handler (through its
drop-or-pass behaviour) and the timer; the instance fields `this.handler`,
`this.socket` and `watching` never influence a batch. -/
lemma runSignals_congr (sigs : List (Int × Signal)) :
    ∀ s₁ s₂ : PluginState, s₁.timer = s₂.timer →
    (∀ b, deliver s₁.localHandler b = deliver s₂.localHandler b) →
    runSignals s₁ sigs = runSignals s₂ sigs := by
  induction sigs with
  | nil => intro s₁ s₂ _ _; rfl
  | cons p rest ih =>
    intro s₁ s₂ ht hh
    obtain ⟨now, sig⟩ := p
    show deliver s₁.localHandler (signalBatch now s₁.timer sig) ++
        runSignals (stepState now s₁ sig) rest =
      deliver s₂.localHandler (signalBatch now s₂.timer sig) ++
        runSignals (stepState now s₂ sig) rest
    rw [ht, hh]
    congr 1
    apply ih
    · exact stepState_timer_congr now sig s₁ s₂ ht
    · intro b
      rw [stepState_localHandler, stepState_localHandler]
      exact hh b

/-! ## C3: cleanup is idempotent and guarded -/

/-- C3: for every plugin state, running `cleanup` twice leaves the same state
as running it once, and when `watching` is true or no transport handle
exists, `cleanup` changes nothing at all. -/
theorem c3_cleanup_idempotent (s : PluginState) :
    cleanup (cleanup s) = cleanup s ∧
    (s.watching = true ∨ s.socket = none → cleanup s = s) := by
  obtain ⟨w, th, sk, lh, tm⟩ := s
  constructor
  · cases w <;> cases sk <;> simp [cleanup]
  · intro h
    cases w with
    | true => simp [cleanup]
    | false =>
      cases sk with
      | none => simp [cleanup]
      | some sk0 =>
        rcases h with h | h
        · exact absurd h (by simp)
        · exact absurd h (by simp)

/-- C3 witness: a concrete state with `watching = true`: double cleanup
equals single cleanup, and cleanup is the identity. -/
theorem c3_cleanup_idempotent_witness :
    cleanup (cleanup ⟨true, false, some ⟨false⟩, HandlerState.socketH, none⟩) =
      cleanup ⟨true, false, some ⟨false⟩, HandlerState.socketH, none⟩ ∧
    cleanup ⟨true, false, some ⟨false⟩, HandlerState.socketH, none⟩ =
      ⟨true, false, some ⟨false⟩, HandlerState.socketH, none⟩ :=
  ⟨(c3_cleanup_idempotent ⟨true, false, some ⟨false⟩, HandlerState.socketH, none⟩).1,
   (c3_cleanup_idempotent ⟨true, false, some ⟨false⟩, HandlerState.socketH, none⟩).2
     (Or.inl rfl)⟩

/-! ## C4: emission after a successful cleanup -/

/-- C4 counterexample: take a connected socket-mode plugin (local handler
rebound to the socket emitter, timer set), not watching, with a live socket.
After a successful `cleanup()` the locally captured handler is still the
socket emitter — not a no-op — and a subsequent `compile` signal still
emits its `[status=Compiling]` batch through it. -/
theorem c4_counterexample :
    (cleanup ⟨false, false, some ⟨false⟩, HandlerState.socketH, some 0⟩).localHandler ≠
      HandlerState.noopH ∧
    runSignals (cleanup ⟨false, false, some ⟨false⟩, HandlerState.socketH, some 0⟩)
      [(5, Signal.compile)] =
      [[⟨EventType.status, EventValue.vstr ("Compiling")⟩]] := by
  constructor
  · decide
  · rfl

/-- C4 (amended): after a successful `cleanup()` (not watching, transport
exists), the instance field `this.handler` is nulled and the transport is
closed, but the handler captured by `apply`'s closures is unchanged, so every
subsequent lifecycle signal is processed exactly as before the cleanup: the
delivered batches of any signal sequence are identical before and after
`cleanup()` (delivery stops reaching the remote only because the socket
itself is closed, which is outside the emitted protocol). -/
theorem c4_cleanup_keeps_emitting (s : PluginState)
    (h1 : s.watching = false) (h2 : s.socket.isSome) :
    (cleanup s).thisHandler = false ∧
    (cleanup s).socket = s.socket.map (fun sk => { sk with closed := true }) ∧
    (cleanup s).localHandler = s.localHandler ∧
    ∀ sigs, runSignals (cleanup s) sigs = runSignals s sigs := by
  have hguard : (!s.watching && s.socket.isSome) = true := by
    rw [h1]
    simpa using h2
  refine ⟨?_, ?_, ?_, ?_⟩
  · simp [cleanup, hguard]
  · simp [cleanup, hguard]
  · simp [cleanup, hguard]
  · intro sigs
    apply runSignals_congr
    · simp [cleanup, hguard]
    · intro b
      have : (cleanup s).localHandler = s.localHandler := by simp [cleanup, hguard]
      rw [this]

/-- C4 amended-claim witness at a concrete post-connect state. -/
theorem c4_cleanup_keeps_emitting_witness :
    (cleanup ⟨false, true, some ⟨false⟩, HandlerState.socketH, some 3⟩).thisHandler = false ∧
    (cleanup ⟨false, true, some ⟨false⟩, HandlerState.socketH, some 3⟩).socket =
      some ⟨true⟩ ∧
    (cleanup ⟨false, true, some ⟨false⟩, HandlerState.socketH, some 3⟩).localHandler =
      HandlerState.socketH ∧
    ∀ sigs, runSignals (cleanup ⟨false, true, some ⟨false⟩, HandlerState.socketH, some 3⟩) sigs =
      runSignals ⟨false, true, some ⟨false⟩, HandlerState.socketH, some 3⟩ sigs :=
  c4_cleanup_keeps_emitting ⟨false, true, some ⟨false⟩, HandlerState.socketH, some 3⟩
    rfl (by decide)

/-! ## C9: handler mode and socket mode deliver the same batches -/

/-- C9: for every sequence of lifecycle signals, a plugin constructed with a
caller-supplied handler delivers exactly the batches a socket-mode plugin
whose transport has connected delivers (same watching flag and timer): the
transport is a pure delivery mechanism with no protocol-level effect on batch
content. -/
theorem c9_handler_socket_equiv (sigs : List (Int × Signal)) (watching : Bool)
    (timer : Option Int) (sock : Option SocketState) (thisH : Bool) :
    runSignals ⟨watching, thisH, sock, HandlerState.socketH, timer⟩ sigs =
    runSignals ⟨watching, true, none, HandlerState.userH, timer⟩ sigs := by
  apply runSignals_congr
  · rfl
  · intro b
    cases b <;> rfl

/-! ## NODE_ENV lookup -/

/-- A plugin entry of `compiler.options.plugins` as read by the NODE_ENV
lookup: its constructor name, and the raw definition string found (if any) at
the lodash path `["definitions", "process.env", "NODE_ENV"]`. -/
structure WebpackPluginCfg where
  ctorName : String
  nodeEnvDefinition : Option String
deriving DecidableEq

/-- `compiler.options.plugins.filter(ctor name is "DefinePlugin")[0]`. -/
def findDefinePlugin (plugins : List WebpackPluginCfg) : Option WebpackPluginCfg :=
  (plugins.filter (fun p => p.ctorName == "DefinePlugin")).head?

/-- The lodash step of the lookup:
`getOr` of the quoted default over the NODE_ENV path, applied to the filter
result (which may be `undefined`).  Yields the raw string handed to
`JSON.parse`. -/
def nodeEnvRaw (plugins : List WebpackPluginCfg) : String :=
  match findDefinePlugin plugins with
  | some p => p.nodeEnvDefinition.getD ("\"development\"")
  | none => "\"development\""

/-- A JS value produced by `JSON.parse` at this call site. -/
inductive JsVal where
  | str : String → JsVal
  | boolean : Bool → JsVal
  | null : JsVal
  | num : Nat → JsVal
deriving DecidableEq

/-- Body of a JSON string literal after the opening quote: characters other
than quote and backslash, terminated by a closing quote that ends the
input. -/
def stringLitBody : List Char → Option (List Char)
  | [] => none
  | c :: rest =>
    if c == '"' then
      if rest == ([] : List Char) then some [] else none
    else if c == '\\' then none
    else (stringLitBody rest).map (fun cs => c :: cs)

/-- A decimal numeral (nonempty, all digits). -/
def decimalToNat (cs : List Char) : Option Nat :=
  if cs == ([] : List Char) then none
  else if cs.all (fun c => c.isDigit) then
    some (cs.foldl (fun n c => n * 10 + (c.toNat - 48)) 0)
  else none

/-- `JSON.parse` on the fragment of JSON that can reach this call site: a
string literal without escape sequences, the literals true/false/null, or a
decimal numeral; any other input (for example a bare identifier such as
`production`, the classic unquoted DefinePlugin value) throws a SyntaxError,
modelled as `none`. -/
def jsonParse (raw : String) : Option JsVal :=
  match raw.data with
  | '"' :: rest =>
    (stringLitBody rest).map (fun cs => JsVal.str (String.mk cs))
  | _ =>
    if raw == "true" then some (JsVal.boolean true)
    else if raw == "false" then some (JsVal.boolean false)
    else if raw == "null" then some JsVal.null
    else
      match decimalToNat raw.data with
      | some n => some (JsVal.num n)
      | none => none

/-- The NODE_ENV resolution at the top of `apply`:
`JSON.parse(getOr default path (find define plugin))`.  The `JSON.parse` call
is not wrapped in any try/catch, so a parse failure propagates out of `apply`
— modelled as `Except.error`. -/
def applyNodeEnv (plugins : List WebpackPluginCfg) : Except Unit JsVal :=
  match jsonParse (nodeEnvRaw plugins) with
  | some v => Except.ok v
  | none => Except.error ()

/-! ## C5: NODE_ENV lookup and its failure mode -/

/-- C5 counterexample: a DefinePlugin whose NODE_ENV definition is the
unquoted string `production` (present but not valid JSON).  `JSON.parse`
throws, so `apply` aborts — the claim that a failing lookup never aborts
plugin setup is false. -/
theorem c5_counterexample :
    applyNodeEnv [⟨"DefinePlugin", some ("production")⟩] = Except.error () := by
  rfl

/-- C5 (amended): the NODE_ENV value is read from the optional define-style
plugin's declared constants and defaults to "development" when the plugin or
the constant is absent; but when the constant is present and does not parse
as JSON, `JSON.parse` throws and `apply` aborts (the lookup is only
best-effort for the absent case, not the unparsable one). -/
theorem c5_node_env (plugins : List WebpackPluginCfg) :
    (findDefinePlugin plugins = none →
      applyNodeEnv plugins = Except.ok (JsVal.str ("development"))) ∧
    (∀ p, findDefinePlugin plugins = some p → p.nodeEnvDefinition = none →
      applyNodeEnv plugins = Except.ok (JsVal.str ("development"))) ∧
    (∀ p raw, findDefinePlugin plugins = some p → p.nodeEnvDefinition = some raw →
      jsonParse raw = none → applyNodeEnv plugins = Except.error ()) ∧
    (∀ p raw v, findDefinePlugin plugins = some p → p.nodeEnvDefinition = some raw →
      jsonParse raw = some v → applyNodeEnv plugins = Except.ok v) := by
  have hdev : jsonParse ("\"development\"") = some (JsVal.str ("development")) := by rfl
  refine ⟨?_, ?_, ?_, ?_⟩
  · intro h
    simp [applyNodeEnv, nodeEnvRaw, h, hdev]
  · intro p hp hdef
    simp [applyNodeEnv, nodeEnvRaw, hp, hdef, hdev]
  · intro p raw hp hdef hparse
    simp [applyNodeEnv, nodeEnvRaw, hp, hdef, hparse]
  · intro p raw v hp hdef hparse
    simp [applyNodeEnv, nodeEnvRaw, hp, hdef, hparse]

/-- C5 amended-claim witness: no DefinePlugin configured — the default
"development" is used and setup succeeds. -/
theorem c5_node_env_witness :
    applyNodeEnv [] = Except.ok (JsVal.str ("development")) :=
  (c5_node_env []).1 rfl

/-! ## C6: the invalid batch -/

/-- C6: every invalid lifecycle signal emits exactly one batch of exactly
four entries in this order: status "Invalidated", progress 0, operations
"idle" (no elapsed-time suffix), and a valueless clear — independent of the
timer and of when the signal fires. -/
theorem c6_invalid_batch (now : Int) (timer : Option Int) :
    signalBatch now timer Signal.invalid = some
      [⟨EventType.status, EventValue.vstr ("Invalidated")⟩,
       ⟨EventType.progress, EventValue.vnum 0⟩,
       ⟨EventType.operations, EventValue.vstr ("idle")⟩,
       ⟨EventType.clear, EventValue.vnone⟩] :=
  rfl

/-! ## C7: the done batch's stats entry -/

/-- C7: for every stats object delivered with a done signal, the emitted
batch has exactly one stats-typed entry, whose errors flag is the stats
object's own error predicate, whose warnings flag is its warning predicate,
and whose data is its JSON rendering. -/
theorem c7_done_stats (now : Int) (timer : Option Int) (st : Stats) :
    ((signalBatch now timer (Signal.done st)).getD []).filter
        (fun e => e.type == EventType.stats) =
      [⟨EventType.stats, EventValue.vstats st.hasErrors st.hasWarnings st.toJson⟩] :=
  rfl

/-! ## C8: done with no preceding compile -/

/-- A concrete stats object used to instantiate the C8 statements. -/
def sampleStats : Stats :=
  ⟨false, false, "null", fun _ => "", ⟨none, none⟩⟩

/-- C8 counterexample: when no compile signal ever ran, the timer is still
the JS `undefined`, and the done batch's operations entry is
"idle (NaNms)" — the elapsed computation does not use zero as the start
instant (a zero start at now = 412 would render "idle (412ms)"). -/
theorem c8_counterexample :
    ((signalBatch 412 none (Signal.done sampleStats)).getD [])[2]? =
      some ⟨EventType.operations, EventValue.vstr ("idle (NaNms)")⟩ ∧
    "idle" ++ getTimeMessage 412 (some 0) = "idle (412ms)" ∧
    ("idle (NaNms)" : String) ≠ "idle (412ms)" := by
  refine ⟨rfl, rfl, by decide⟩

/-- C8 (amended): a done with no preceding compile does not crash — the
operations entry is always the string "idle" followed by the elapsed label —
but with no last-known start instant the label degrades to " (NaNms)"
(JS `Date.now() - undefined` is NaN), not to a zero-based duration; when a
start instant exists it is used. -/
theorem c8_done_without_compile (now : Int) (timer : Option Int) (st : Stats) :
    ((signalBatch now timer (Signal.done st)).getD [])[2]? =
      some ⟨EventType.operations, EventValue.vstr ("idle" ++ getTimeMessage now timer)⟩ ∧
    (timer = none → getTimeMessage now timer = " (NaNms)") ∧
    (∀ t, timer = some t → getTimeMessage now timer = elapsedLabelSpec (now - t)) := by
  refine ⟨rfl, ?_, ?_⟩
  · intro h
    subst h
    rfl
  · intro t h
    subst h
    exact getTimeMessage_some now t

/-- C8 amended-claim witness at a concrete undefined-timer input. -/
theorem c8_done_without_compile_witness :
    ((signalBatch 7 none (Signal.done sampleStats)).getD [])[2]? =
      some ⟨EventType.operations, EventValue.vstr ("idle" ++ getTimeMessage 7 none)⟩ ∧
    getTimeMessage 7 none = " (NaNms)" :=
  ⟨(c8_done_without_compile 7 none sampleStats).1,
   (c8_done_without_compile 7 none sampleStats).2.1 rfl⟩

/-! ## C10: batch shape invariant -/

/-- The closed set of event types the plugin ever emits. -/
def allowedTypes : List EventType :=
  [EventType.nodeEnv, EventType.status, EventType.progress, EventType.operations,
   EventType.clear, EventType.stats, EventType.log]

/-- The closed set of status payloads the plugin ever emits. -/
def allowedStatusValues : List EventValue :=
  [EventValue.vstr ("Compiling"), EventValue.vstr ("Invalidated"),
   EventValue.vstr ("Failed"), EventValue.vstr ("Success")]

/-- C10: every batch a lifecycle signal emits is non-empty, its event types
are drawn only from the closed set \x7bnodeEnv, status, progress, operations,
clear, stats, log\x7d, and every status-typed entry carries one of exactly
"Compiling", "Invalidated", "Failed" or "Success". -/
theorem c10_batch_invariant (now : Int) (timer : Option Int) (sig : Signal)
    (b : List Event) (h : signalBatch now timer sig = some b) :
    b ≠ [] ∧ ∀ e ∈ b, e.type ∈ allowedTypes ∧
      (e.type = EventType.status → e.value ∈ allowedStatusValues) := by
  cases sig with
  | watchRun => simp [signalBatch] at h
  | run => simp [signalBatch] at h
  | compile =>
    simp only [signalBatch, Option.some.injEq] at h
    subst h
    refine ⟨by simp, ?_⟩
    intro e he
    fin_cases he
    simp [allowedTypes, allowedStatusValues]
  | progressUpdate percent msg =>
    simp only [signalBatch, Option.some.injEq] at h
    subst h
    refine ⟨by simp, ?_⟩
    intro e he
    fin_cases he <;> simp [allowedTypes, allowedStatusValues]
  | invalid =>
    simp only [signalBatch, Option.some.injEq] at h
    subst h
    refine ⟨by simp, ?_⟩
    intro e he
    fin_cases he <;> simp [allowedTypes, allowedStatusValues]
  | failed =>
    simp only [signalBatch, Option.some.injEq] at h
    subst h
    refine ⟨by simp, ?_⟩
    intro e he
    fin_cases he <;> simp [allowedTypes, allowedStatusValues]
  | done st =>
    simp only [signalBatch, Option.some.injEq] at h
    subst h
    refine ⟨by simp, ?_⟩
    intro e he
    fin_cases he <;> simp [allowedTypes, allowedStatusValues]

/-- C10 witness at the invalid signal's batch. -/
theorem c10_batch_invariant_witness :
    ([⟨EventType.status, EventValue.vstr ("Invalidated")⟩,
      ⟨EventType.progress, EventValue.vnum 0⟩,
      ⟨EventType.operations, EventValue.vstr ("idle")⟩,
      ⟨EventType.clear, EventValue.vnone⟩] : List Event) ≠ [] ∧
    ∀ e ∈ ([⟨EventType.status, EventValue.vstr ("Invalidated")⟩,
      ⟨EventType.progress, EventValue.vnum 0⟩,
      ⟨EventType.operations, EventValue.vstr ("idle")⟩,
      ⟨EventType.clear, EventValue.vnone⟩] : List Event),
      e.type ∈ allowedTypes ∧
      (e.type = EventType.status → e.value ∈ allowedStatusValues) :=
  c10_batch_invariant 0 none Signal.invalid _ rfl

end DashboardPlugin
